import Mathlib

/- Verification of the data-access layer of the metrics dashboard backend
   (backend/data_loader.py and the compare route of backend/app.py),
   shallow-embedded in Lean.  The metrics table is modelled as a list of
   rows; SQL queries are modelled by executable functions over that list,
   following the SQLite semantics of the statements the code builds. -/

namespace MetricsApp

/-- A SQL cell value as stored in the metrics table: NULL, a REAL, or TEXT.
REAL is modelled by the rationals. -/
inductive SqlValue where
  | null : SqlValue
  | real (q : Rat) : SqlValue
  | text (s : String) : SqlValue
deriving DecidableEq

/-- One row of the metrics table (schema of create_schema in
backend/data_loader.py): TEXT columns account_id, campaign_id, date and
REAL columns cost_micros, clicks, conversions, impressions, interactions.
Every column is nullable. -/
structure MetricRow where
  account_id   : Option String
  campaign_id  : Option String
  cost_micros  : Option Rat
  clicks       : Option Rat
  conversions  : Option Rat
  impressions  : Option Rat
  interactions : Option Rat
  date         : Option String
deriving DecidableEq

/-- ALLOWED_SORT of backend/data_loader.py: columns allowed in ORDER BY. -/
def ALLOWED_SORT : List String :=
  ["account_id", "campaign_id", "cost_micros",
   "clicks", "conversions", "impressions", "interactions", "date"]

/-- Lexicographic order on character lists, the order SQLite uses to
compare TEXT values (byte order, which on the code points of this data
coincides with lexicographic code-point order). -/
def charListLe : List Char → List Char → Bool
  | [], _ => true
  | _ :: _, [] => false
  | a :: as, b :: bs =>
    if a.toNat < b.toNat then true
    else if b.toNat < a.toNat then false
    else charListLe as bs

/-- TEXT comparison of the storage engine. -/
def strLe (a b : String) : Bool := charListLe a.toList b.toList

/-- ASCII lowercasing of one character. -/
def lowerChar (c : Char) : Char :=
  if c.toNat ≥ 65 && c.toNat ≤ 90 then Char.ofNat (c.toNat + 32) else c

/-- ASCII lowercasing of a string, the case folding SQLite LIKE applies;
also models str.lower() on the ASCII arguments used by the code. -/
def asciiLower (s : String) : String := String.mk (s.toList.map lowerChar)

/-- Python truthiness of an optional string: None and the empty string are
falsy, as in the checks of _build_where. -/
def truthy : Option String → Bool
  | none => false
  | some s => !(s == "")

/-- SQLite evaluation of a condition on a nullable column: a condition on
NULL is NULL, which does not match the row. -/
def nnCond (f : String → Bool) : Option String → Bool
  | none => false
  | some s => f s

/-- All suffixes of a character list, longest first. -/
def suffixes : List Char → List (List Char)
  | [] => [[]]
  | c :: s => (c :: s) :: suffixes s

/-- SQLite LIKE pattern matching on character lists: a percent sign
matches any sequence of characters, an underscore matches exactly one
character, any other character matches itself.  Case folding is applied
by the caller. -/
def likeMatch : List Char → List Char → Bool
  | [], s => s.isEmpty
  | '%' :: p, s => (suffixes s).any (fun t => likeMatch p t)
  | '_' :: p, s =>
    match s with
    | [] => false
    | _ :: s2 => likeMatch p s2
  | c :: p, s =>
    match s with
    | [] => false
    | d :: s2 => c == d && likeMatch p s2

/-- Semantics of v LIKE pat under the SQLite default collation:
pattern matching after ASCII case folding of both sides (SQLite LIKE is
case-insensitive on ASCII by default). -/
def sqlLike (pat v : String) : Bool :=
  likeMatch (asciiLower pat).toList (asciiLower v).toList

/-- The LIKE condition the code builds for a filter value q: q is
interpolated raw between two percent signs (the params.append of %q% in
_build_where and get_distinct_values), so a percent sign or an underscore
inside q keeps its wildcard meaning; for q free of wildcards this is
case-insensitive substring containment. -/
def sqlLikeContains (q v : String) : Bool :=
  sqlLike ("%" ++ q ++ "%") v

/-- Row predicate of the WHERE clause assembled by _build_where in
backend/data_loader.py: date >= ?, date <= ?, account_id LIKE %?%,
campaign_id LIKE %?%, each added only when the argument is truthy and
joined with AND.  Date bounds are inclusive string comparisons. -/
def build_where_pred (date_from date_to account_id campaign_id : Option String)
    (r : MetricRow) : Bool :=
  (if truthy date_from then nnCond (fun d => strLe (date_from.getD "") d) r.date else true) &&
  (if truthy date_to then nnCond (fun d => strLe d (date_to.getD "")) r.date else true) &&
  (if truthy account_id then nnCond (fun a => sqlLikeContains (account_id.getD "") a) r.account_id else true) &&
  (if truthy campaign_id then nnCond (fun c => sqlLikeContains (campaign_id.getD "") c) r.campaign_id else true)

/-- Sort-column sanitization of query_metrics_sql and _build_export_sql:
keep the requested column when it is in ALLOWED_SORT, else fall back to
date.  A missing value also falls back to date. -/
def sanitize_sort_by : Option String → String
  | some s => if s ∈ ALLOWED_SORT then s else "date"
  | none => "date"

/-- Sort-direction sanitization: DESC exactly when the lowercased value is
desc (None becomes the empty string first), else ASC. -/
def sanitize_sort_dir (sort_dir : Option String) : String :=
  if asciiLower (sort_dir.getD "") == "desc" then "DESC" else "ASC"

/-- Lift an optional TEXT cell to a SqlValue. -/
def optText : Option String → SqlValue
  | none => SqlValue.null
  | some s => SqlValue.text s

/-- Lift an optional REAL cell to a SqlValue. -/
def optReal : Option Rat → SqlValue
  | none => SqlValue.null
  | some q => SqlValue.real q

/-- Value of a named column of a row. -/
def MetricRow.getCol (r : MetricRow) : String → SqlValue
  | "account_id" => optText r.account_id
  | "campaign_id" => optText r.campaign_id
  | "cost_micros" => optReal r.cost_micros
  | "clicks" => optReal r.clicks
  | "conversions" => optReal r.conversions
  | "impressions" => optReal r.impressions
  | "interactions" => optReal r.interactions
  | "date" => optText r.date
  | _ => SqlValue.null

/-- SQLite ordering on cell values: NULL sorts before every value,
numbers before text, numbers by numeric order, text by string order. -/
def sqlValueLe : SqlValue → SqlValue → Bool
  | SqlValue.null, _ => true
  | _, SqlValue.null => false
  | SqlValue.real a, SqlValue.real b => decide (a ≤ b)
  | SqlValue.real _, SqlValue.text _ => true
  | SqlValue.text _, SqlValue.real _ => false
  | SqlValue.text a, SqlValue.text b => strLe a b

/-- ORDER BY col dir, modelled as a deterministic stable sort of the row
list by the value of the sort column.  DESC flips the comparison, which
also puts NULLs last, as SQLite does. -/
def orderRows (rows : List MetricRow) (sb dir : String) : List MetricRow :=
  if dir == "DESC" then
    rows.mergeSort (fun a b => sqlValueLe (b.getCol sb) (a.getCol sb))
  else
    rows.mergeSort (fun a b => sqlValueLe (a.getCol sb) (b.getCol sb))

/-- Column projection of query_metrics_sql and _build_export_sql:
cost_micros is present exactly when include_cost is true (RBAC). -/
def projCols (include_cost : Bool) : List String :=
  if include_cost then
    ["account_id", "campaign_id", "cost_micros", "clicks", "conversions",
     "impressions", "interactions", "date"]
  else
    ["account_id", "campaign_id", "clicks", "conversions",
     "impressions", "interactions", "date"]

/-- One result-row dictionary, as built by dict(zip(headers, r)): the
projected column names paired with the row values. -/
def projectRow (include_cost : Bool) (r : MetricRow) : List (String × SqlValue) :=
  (projCols include_cost).map (fun c => (c, r.getCol c))

/-- SQL SUM over a nullable REAL column: NULL values are skipped; the sum
of an empty or all-NULL column is NULL. -/
def sqlSUM (rows : List MetricRow) (f : MetricRow → Option Rat) : Option Rat :=
  let vs := rows.filterMap f
  if vs.isEmpty then none else some vs.sum

/-- COALESCE(x, 0). -/
def coalesce0 (x : Option Rat) : Rat := x.getD 0

/-- The totals dictionary of query_metrics_sql: COALESCE(SUM(col), 0) for
each metric column over the filtered set, including cost_micros exactly
when include_cost is true. -/
def totalsRow (rows : List MetricRow) (include_cost : Bool) : List (String × Rat) :=
  if include_cost then
    [("clicks", coalesce0 (sqlSUM rows MetricRow.clicks)),
     ("conversions", coalesce0 (sqlSUM rows MetricRow.conversions)),
     ("impressions", coalesce0 (sqlSUM rows MetricRow.impressions)),
     ("interactions", coalesce0 (sqlSUM rows MetricRow.interactions)),
     ("cost_micros", coalesce0 (sqlSUM rows MetricRow.cost_micros))]
  else
    [("clicks", coalesce0 (sqlSUM rows MetricRow.clicks)),
     ("conversions", coalesce0 (sqlSUM rows MetricRow.conversions)),
     ("impressions", coalesce0 (sqlSUM rows MetricRow.impressions)),
     ("interactions", coalesce0 (sqlSUM rows MetricRow.interactions))]

/-- Result of query_metrics_sql: the page of row dictionaries, the total
row count of the filter, and the totals dictionary. -/
structure QueryResult where
  rows : List (List (String × SqlValue))
  total : Nat
  totals : List (String × Rat)
deriving DecidableEq

/-- query_metrics_sql of backend/data_loader.py over a table state:
sanitizes sort column and direction, clamps page to at least 1 and
page_size to 1..200, filters with the _build_where predicate, orders,
and returns the LIMIT page_size OFFSET (page-1)*page_size slice together
with the unpaginated COUNT and totals. -/
def query_metrics_sql (tbl : List MetricRow)
    (date_from date_to account_id campaign_id sort_by sort_dir : Option String)
    (page page_size : Int) (include_cost : Bool) : QueryResult :=
  let sb := sanitize_sort_by sort_by
  let dir := sanitize_sort_dir sort_dir
  let p : Nat := (max 1 page).toNat
  let ps : Nat := (max 1 (min 200 page_size)).toNat
  let offset : Nat := (p - 1) * ps
  let filtered := tbl.filter (build_where_pred date_from date_to account_id campaign_id)
  let ordered := orderRows filtered sb dir
  { rows := ((ordered.drop offset).take ps).map (projectRow include_cost)
    total := filtered.length
    totals := totalsRow filtered include_cost }

/-- Rendering of a cell for CSV export: NULL becomes the empty string,
text is kept, and a number is printed (abstracting the decimal rendering
of Python floats). -/
def renderCell : SqlValue → String
  | SqlValue.null => ""
  | SqlValue.text s => s
  | SqlValue.real q => reprStr q

/-- Minimal-quoting CSV field encoding as done by csv.writer. -/
def csvField (s : String) : String :=
  if s.toList.any (fun c => c == ',' || c == '"' || c == '\n' || c == '\r') then
    "\"" ++ (s.replace "\"" "\"\"") ++ "\""
  else s

/-- One CSV line as produced by csv.writer.writerow: comma-joined encoded
fields followed by CRLF. -/
def csvLine (cells : List String) : String :=
  String.intercalate "," (cells.map csvField) ++ "\r\n"

/-- stream_export_csv of backend/data_loader.py over a table state: the
query built by _build_export_sql (same WHERE, same projection, same ORDER
BY as query_metrics_sql, but no LIMIT/OFFSET), yielded as a header line
followed by one encoded line per result row. -/
def stream_export_csv (tbl : List MetricRow)
    (date_from date_to account_id campaign_id sort_by sort_dir : Option String)
    (include_cost : Bool) : List String :=
  let filtered := tbl.filter (build_where_pred date_from date_to account_id campaign_id)
  let ordered := orderRows filtered (sanitize_sort_by sort_by) (sanitize_sort_dir sort_dir)
  csvLine (projCols include_cost)
    :: ordered.map (fun r => csvLine ((projectRow include_cost r).map (fun p => renderCell p.2)))

/-- Ordering used by ORDER BY on a nullable TEXT column: NULL first, then
string order (used by get_distinct_values). -/
def optStrLe : Option String → Option String → Bool
  | none, _ => true
  | some _, none => false
  | some a, some b => strLe a b

/-- The TEXT column named by a facet request (only account_id and
campaign_id are reachable behind the allow-list guard). -/
def getTextCol (r : MetricRow) : String → Option String
  | "account_id" => r.account_id
  | "campaign_id" => r.campaign_id
  | _ => none

/-- get_distinct_values of backend/data_loader.py over a table state:
returns [] for a column outside account_id/campaign_id; otherwise runs
SELECT DISTINCT col WHERE col LIKE %q% (only when q is non-empty)
ORDER BY col LIMIT limit, and then drops NULL results as the Python list
comprehension does. -/
def get_distinct_values (tbl : List MetricRow) (column : String) (q : String)
    (limit : Nat) : List String :=
  if !(column == "account_id" || column == "campaign_id") then []
  else
    let vals := tbl.map (fun r => getTextCol r column)
    let matched := if q == "" then vals
      else vals.filter (nnCond (fun v => sqlLikeContains q v))
    let sorted := matched.dedup.mergeSort optStrLe
    (sorted.take limit).filterMap id

/-- SQLITE_MAX_VARS of import_csv_chunks. -/
def SQLITE_MAX_VARS : Nat := 999

/-- Sub-batch row count of import_csv_chunks:
max(1, SQLITE_MAX_VARS // n_cols - 1).  Python floor division and
max(1, .) on these operands agree with Nat division and truncated
subtraction: whenever the Python value 999 // n - 1 is negative (n > 999),
both it and the Nat value 999 / n - 1 = 0 are lifted to 1 by the max. -/
def rows_per_insert (n_cols : Nat) : Nat :=
  max 1 (SQLITE_MAX_VARS / n_cols - 1)

/-- One raw CSV record of the metrics file: each cell is an optional raw
string (a missing cell is none). -/
structure CsvRecord where
  account_id   : Option String
  campaign_id  : Option String
  cost_micros  : Option String
  clicks       : Option String
  conversions  : Option String
  impressions  : Option String
  interactions : Option String
  date         : Option String

/-- Value of a digit string. -/
def digitsToNat (ds : List Char) : Nat :=
  ds.foldl (fun n c => n * 10 + (c.toNat - 48)) 0

/-- Model of pandas to_numeric(errors=coerce) on one cell: parse an
optionally signed decimal literal, anything else coerces to null.  Never
raises. -/
def parseNumeric (s : String) : Option Rat :=
  let cs := ((s.toList.dropWhile Char.isWhitespace).reverse.dropWhile Char.isWhitespace).reverse
  let sgn := match cs with
    | c :: _ => if c == '-' then (true : Bool) else false
    | [] => false
  let body := match cs with
    | c :: rest => if c == '-' || c == '+' then rest else cs
    | [] => cs
  let intPart := body.takeWhile Char.isDigit
  let rest := body.dropWhile Char.isDigit
  match rest with
  | [] =>
    if intPart.isEmpty then none
    else
      let v : Rat := (digitsToNat intPart : Nat)
      some (if sgn then -v else v)
  | '.' :: frac =>
    if frac.all Char.isDigit && !(intPart.isEmpty && frac.isEmpty) then
      let v : Rat := (digitsToNat intPart : Nat) +
        (digitsToNat frac : Nat) / ((10 : Rat) ^ frac.length)
      some (if sgn then -v else v)
    else none
  | _ => none

/-- to_numeric applied to an optional cell: a missing cell is null. -/
def normNumeric : Option String → Option Rat
  | none => none
  | some s => parseNumeric s

/-- Model of to_datetime(errors=coerce).strftime: a cell already in ISO
YYYY-MM-DD form with plausible month and day is kept, anything else
coerces to null.  Never raises. -/
def normDate : Option String → Option String
  | none => none
  | some s =>
    match s.toList with
    | [y1, y2, y3, y4, '-', m1, m2, '-', d1, d2] =>
      if ([y1, y2, y3, y4, m1, m2, d1, d2].all Char.isDigit) &&
         decide (1 ≤ digitsToNat [m1, m2] ∧ digitsToNat [m1, m2] ≤ 12) &&
         decide (1 ≤ digitsToNat [d1, d2] ∧ digitsToNat [d1, d2] ≤ 31)
      then some s else none
    | _ => none

/-- Per-record normalization of import_csv_chunks step 4: numeric columns
through to_numeric coercion, date through date coercion, the id columns
read as strings. -/
def normalizeRecord (c : CsvRecord) : MetricRow :=
  { account_id := c.account_id
    campaign_id := c.campaign_id
    cost_micros := normNumeric c.cost_micros
    clicks := normNumeric c.clicks
    conversions := normNumeric c.conversions
    impressions := normNumeric c.impressions
    interactions := normNumeric c.interactions
    date := normDate c.date }

/-- import_csv_chunks of backend/data_loader.py over an abstract
filesystem fs mapping a path to the chunk sequence that pd.read_csv
produces for it, or none when the path does not exist.  The existence
check runs first and raises FileNotFoundError before anything touches the
table; on success the table is emptied (DELETE FROM metrics) and every
chunk is normalized and appended, and the returned count is the number of
records read. -/
def import_csv_chunks (fs : String → Option (List (List CsvRecord)))
    (csv_path : String) (tbl : List MetricRow) :
    Except String Nat × List MetricRow :=
  match fs csv_path with
  | none => (Except.error ("CSV nao encontrado: " ++ csv_path), tbl)
  | some chunks =>
    let final := chunks.foldl
      (fun (st : List MetricRow × Nat) chunk =>
        (st.1 ++ chunk.map normalizeRecord, st.2 + chunk.length))
      ([], 0)
    (Except.ok final.2, final.1)

/-- Python dict.get(k, 0.0) on a totals dictionary. -/
def dictGetD (m : List (String × Rat)) (k : String) : Rat :=
  (m.lookup k).getD 0

/-- The period-comparison loop of the compare route in backend/app.py:
for every key k of totals A, diff_abs[k] = B[k] - A[k], and
diff_pct[k] = None when A[k] == 0, else (B[k] - A[k]) / A[k] * 100. -/
def compare_diffs (total_a total_b : List (String × Rat)) :
    List (String × Rat) × List (String × Option Rat) :=
  (total_a.map (fun p => (p.1, dictGetD total_b p.1 - dictGetD total_a p.1)),
   total_a.map (fun p => (p.1,
     if dictGetD total_a p.1 = 0 then none
     else some ((dictGetD total_b p.1 - dictGetD total_a p.1)
       / dictGetD total_a p.1 * 100))))

/-- The three-row table of the concrete scenario in the specification,
used to instantiate witnesses. -/
def sampleTable : List MetricRow :=
  [{ account_id := some "acc1", campaign_id := some "camp1",
     cost_micros := some 1000000, clicks := some 10, conversions := some 1,
     impressions := some 100, interactions := some 5,
     date := some "2024-01-01" },
   { account_id := some "acc1", campaign_id := some "camp2",
     cost_micros := none, clicks := some 5, conversions := some 0,
     impressions := some 50, interactions := some 2,
     date := some "2024-01-02" },
   { account_id := some "acc2", campaign_id := some "camp1",
     cost_micros := some 500000, clicks := some 20, conversions := some 2,
     impressions := some 200, interactions := some 10,
     date := some "2024-01-03" }]

/-- A one-row table whose account_id contains a hyphen, used to exhibit
the wildcard behavior of the LIKE filter. -/
def wildcardRow : MetricRow :=
  { account_id := some "acc-1", campaign_id := none, cost_micros := none,
    clicks := none, conversions := none, impressions := none,
    interactions := none, date := none }

/- ------------------------------------------------------------------ -/
/- Helper lemmas -/
/- ------------------------------------------------------------------ -/

lemma charListLe_total : ∀ as bs, (charListLe as bs || charListLe bs as) = true := by
  intro as
  induction as with
  | nil => intro bs; simp [charListLe]
  | cons a as ih =>
    intro bs
    cases bs with
    | nil => simp [charListLe]
    | cons b bs =>
      simp only [charListLe]
      by_cases hab : a.toNat < b.toNat
      · simp [hab]
      · by_cases hba : b.toNat < a.toNat
        · simp [hab, hba]
        · simpa [hab, hba] using ih bs

lemma charListLe_trans : ∀ as bs cs, charListLe as bs = true → charListLe bs cs = true →
    charListLe as cs = true := by
  intro as
  induction as with
  | nil => intro bs cs _ _; rfl
  | cons a as ih =>
    intro bs cs h1 h2
    cases bs with
    | nil => simp [charListLe] at h1
    | cons b bs =>
      cases cs with
      | nil => simp [charListLe] at h2
      | cons c cs =>
        simp only [charListLe] at h1 h2 ⊢
        by_cases hab : a.toNat < b.toNat
        · by_cases hbc : b.toNat < c.toNat
          · rw [if_pos (by omega)]
          · rw [if_pos hab] at h1
            rw [if_neg hbc] at h2
            by_cases hcb : c.toNat < b.toNat
            · rw [if_pos hcb] at h2; exact absurd h2 (by simp)
            · rw [if_pos (by omega)]
        · rw [if_neg hab] at h1
          by_cases hba : b.toNat < a.toNat
          · rw [if_pos hba] at h1; exact absurd h1 (by simp)
          · rw [if_neg hba] at h1
            by_cases hbc : b.toNat < c.toNat
            · rw [if_pos (by omega)]
            · rw [if_neg hbc] at h2
              by_cases hcb : c.toNat < b.toNat
              · rw [if_pos hcb] at h2; exact absurd h2 (by simp)
              · rw [if_neg hcb] at h2
                rw [if_neg (by omega), if_neg (by omega)]
                exact ih bs cs h1 h2

lemma sqlValueLe_total (a b : SqlValue) : (sqlValueLe a b || sqlValueLe b a) = true := by
  cases a <;> cases b <;> simp [sqlValueLe, strLe]
  · exact le_total _ _
  · simpa using charListLe_total _ _

lemma sqlValueLe_trans (a b c : SqlValue) (h1 : sqlValueLe a b = true)
    (h2 : sqlValueLe b c = true) : sqlValueLe a c = true := by
  cases a <;> cases b <;> cases c <;> simp_all [sqlValueLe, strLe]
  · exact le_trans h1 h2
  · exact charListLe_trans _ _ _ h1 h2

lemma optStrLe_total (a b : Option String) : (optStrLe a b || optStrLe b a) = true := by
  cases a <;> cases b <;> simp [optStrLe, strLe]
  simpa using charListLe_total _ _

lemma optStrLe_trans (a b c : Option String) (h1 : optStrLe a b = true)
    (h2 : optStrLe b c = true) : optStrLe a c = true := by
  cases a <;> cases b <;> cases c <;> simp_all [optStrLe, strLe]
  exact charListLe_trans _ _ _ h1 h2

lemma orderRows_length (rows : List MetricRow) (sb dir : String) :
    (orderRows rows sb dir).length = rows.length := by
  unfold orderRows; split <;> exact List.length_mergeSort rows

lemma orderRows_perm (rows : List MetricRow) (sb dir : String) :
    (orderRows rows sb dir).Perm rows := by
  unfold orderRows; split <;> exact List.mergeSort_perm rows _

lemma filterMap_getD_sum (f : MetricRow → Option Rat) :
    ∀ rows : List MetricRow,
      (rows.filterMap f).sum = (rows.map (fun r => (f r).getD 0)).sum := by
  intro rows
  induction rows with
  | nil => rfl
  | cons r rs ih =>
    cases h : f r <;> simp [List.filterMap_cons, h, ih]

lemma coalesce0_sqlSUM (rows : List MetricRow) (f : MetricRow → Option Rat) :
    coalesce0 (sqlSUM rows f) = (rows.map (fun r => (f r).getD 0)).sum := by
  rw [← filterMap_getD_sum]
  unfold coalesce0 sqlSUM
  by_cases h : (rows.filterMap f).isEmpty
  · rw [List.isEmpty_iff] at h
    simp [h]
  · simp [h]

lemma totalsRow_lookup_clicks (rows : List MetricRow) (ic : Bool) :
    (totalsRow rows ic).lookup "clicks"
      = some (coalesce0 (sqlSUM rows MetricRow.clicks)) := by
  cases ic <;> rfl

lemma totalsRow_lookup_conversions (rows : List MetricRow) (ic : Bool) :
    (totalsRow rows ic).lookup "conversions"
      = some (coalesce0 (sqlSUM rows MetricRow.conversions)) := by
  cases ic <;> rfl

lemma totalsRow_lookup_impressions (rows : List MetricRow) (ic : Bool) :
    (totalsRow rows ic).lookup "impressions"
      = some (coalesce0 (sqlSUM rows MetricRow.impressions)) := by
  cases ic <;> rfl

lemma totalsRow_lookup_interactions (rows : List MetricRow) (ic : Bool) :
    (totalsRow rows ic).lookup "interactions"
      = some (coalesce0 (sqlSUM rows MetricRow.interactions)) := by
  cases ic <;> rfl

lemma totalsRow_lookup_cost (rows : List MetricRow) :
    (totalsRow rows true).lookup "cost_micros"
      = some (coalesce0 (sqlSUM rows MetricRow.cost_micros)) := rfl

lemma lookup_map_keyfun {β : Type} (g : String → β) :
    ∀ (m : List (String × Rat)) (k : String), k ∈ m.map Prod.fst →
      (m.map (fun p => (p.1, g p.1))).lookup k = some (g k) := by
  intro m
  induction m with
  | nil => intro k hk; simp at hk
  | cons p rest ih =>
    intro k hk
    by_cases h : k = p.1
    · subst h; simp [List.lookup]
    · have hk2 : k ∈ rest.map Prod.fst := by
        rcases List.mem_cons.mp hk with h1 | h1
        · exact absurd h1 h
        · exact h1
      have hbeq : (k == p.1) = false := by simp [h]
      simp only [List.map_cons, List.lookup, hbeq]
      exact ih k hk2

lemma flatten_pageSlices {α : Type} (l : List α) (ps : Nat) :
    ∀ K, ((List.range K).map (fun i => (l.drop (i * ps)).take ps)).flatten
      = l.take (K * ps) := by
  intro K
  induction K with
  | zero => simp
  | succ k ih =>
    rw [List.range_succ, List.map_append, List.flatten_append, ih]
    simp [Nat.succ_mul, List.take_add]

lemma build_where_empty_df (dt aid cid : Option String) :
    build_where_pred (some "") dt aid cid = build_where_pred none dt aid cid := by
  funext r; simp [build_where_pred, truthy]

lemma build_where_empty_dt (df aid cid : Option String) :
    build_where_pred df (some "") aid cid = build_where_pred df none aid cid := by
  funext r; simp [build_where_pred, truthy]

lemma build_where_empty_aid (df dt cid : Option String) :
    build_where_pred df dt (some "") cid = build_where_pred df dt none cid := by
  funext r; simp [build_where_pred, truthy]

lemma build_where_empty_cid (df dt aid : Option String) :
    build_where_pred df dt aid (some "") = build_where_pred df dt aid none := by
  funext r; simp [build_where_pred, truthy]

/- ------------------------------------------------------------------ -/
/- Claim theorems -/
/- ------------------------------------------------------------------ -/

/-- Claim C1, amended: the sub-batch row count max(1, 999 // n_cols - 1)
of import_csv_chunks keeps sub_batch_rows * n_cols within the 999
parameter ceiling for every column count from 1 to 999 (for the
8-column metrics schema the product is exactly 984); for 1000 or more
columns even a single row exceeds the ceiling, so the bound cannot hold
for every positive column count. -/
theorem claim1_subbatch_under_limit (n_cols : Nat) (h1 : 1 ≤ n_cols)
    (h2 : n_cols ≤ 999) :
    rows_per_insert n_cols * n_cols ≤ SQLITE_MAX_VARS ∧
      rows_per_insert 8 * 8 = 984 := by
  refine ⟨?_, by decide⟩
  unfold rows_per_insert
  have hs : SQLITE_MAX_VARS = 999 := rfl
  rw [hs]
  rcases Nat.le_total (999 / n_cols - 1) 1 with hx | hx
  · rw [Nat.max_eq_left hx]
    omega
  · rw [Nat.max_eq_right hx]
    calc (999 / n_cols - 1) * n_cols
        ≤ 999 / n_cols * n_cols := Nat.mul_le_mul_right _ (Nat.sub_le _ _)
      _ ≤ 999 := Nat.div_mul_le_self _ _

/-- Claim C1, witness at the 8-column metrics schema. -/
theorem claim1_subbatch_under_limit_witness :
    (1 ≤ 8 ∧ 8 ≤ 999) ∧
      (rows_per_insert 8 * 8 ≤ SQLITE_MAX_VARS ∧ rows_per_insert 8 * 8 = 984) :=
  ⟨by decide, claim1_subbatch_under_limit 8 (by decide) (by decide)⟩

/-- Claim C1, counterexample: with 1000 columns the computed sub-batch is
clamped to one row, which already binds 1000 parameters, strictly above
the 999 ceiling, refuting the claim for every positive column count. -/
theorem claim1_counterexample :
    0 < 1000 ∧ SQLITE_MAX_VARS < rows_per_insert 1000 * 1000 := by decide

/-- Claim C2: when include_cost is false, no row dictionary returned by
query_metrics_sql and no entry of its totals dictionary carries the key
cost_micros, for every filter and request parameter combination. -/
theorem claim2_no_cost_key (tbl : List MetricRow)
    (df dt aid cid sb sd : Option String) (page ps : Int) :
    (∀ row ∈ (query_metrics_sql tbl df dt aid cid sb sd page ps false).rows,
      ∀ p ∈ row, p.1 ≠ "cost_micros") ∧
    (∀ p ∈ (query_metrics_sql tbl df dt aid cid sb sd page ps false).totals,
      p.1 ≠ "cost_micros") := by
  constructor
  · intro row hrow p hp
    have hrow2 : ∃ r, row = projectRow false r := by
      simp only [query_metrics_sql, List.mem_map] at hrow
      obtain ⟨r, _, h⟩ := hrow
      exact ⟨r, h.symm⟩
    obtain ⟨r, rfl⟩ := hrow2
    simp only [projectRow, projCols, List.mem_map] at hp
    obtain ⟨c, hc, hp2⟩ := hp
    have hfst : p.1 = c := by rw [← hp2]
    rw [hfst]
    intro hcontra
    rw [hcontra] at hc
    exact absurd hc (by decide)
  · intro p hp
    have hp2 : p ∈ totalsRow (tbl.filter (build_where_pred df dt aid cid)) false := hp
    have hkey : p.1 ∈ (totalsRow (tbl.filter (build_where_pred df dt aid cid)) false).map
        Prod.fst := List.mem_map_of_mem Prod.fst hp2
    intro hcontra
    rw [hcontra, show (totalsRow (tbl.filter (build_where_pred df dt aid cid)) false).map
        Prod.fst = ["clicks", "conversions", "impressions", "interactions"] from rfl] at hkey
    exact absurd hkey (by decide)

/-- Claim C2, witness. -/
theorem claim2_no_cost_key_witness :
    (∀ row ∈ (query_metrics_sql sampleTable none none none none none none 1 50 false).rows,
      ∀ p ∈ row, p.1 ≠ "cost_micros") ∧
    (∀ p ∈ (query_metrics_sql sampleTable none none none none none none 1 50 false).totals,
      p.1 ≠ "cost_micros") :=
  claim2_no_cost_key sampleTable none none none none none none 1 50

/-- Claim C4: every field of the totals dictionary equals the sum of its
column over the rows matching the filter with null cells contributing 0
(an empty or all-null filtered set therefore yields 0); cost_micros
behaves the same when include_cost is true. -/
theorem claim4_totals_filtered_sums (tbl : List MetricRow)
    (df dt aid cid sb sd : Option String) (page ps : Int) (ic : Bool) :
    ((query_metrics_sql tbl df dt aid cid sb sd page ps ic).totals.lookup "clicks"
      = some (((tbl.filter (build_where_pred df dt aid cid)).map
          (fun r => r.clicks.getD 0)).sum))
  ∧ ((query_metrics_sql tbl df dt aid cid sb sd page ps ic).totals.lookup "conversions"
      = some (((tbl.filter (build_where_pred df dt aid cid)).map
          (fun r => r.conversions.getD 0)).sum))
  ∧ ((query_metrics_sql tbl df dt aid cid sb sd page ps ic).totals.lookup "impressions"
      = some (((tbl.filter (build_where_pred df dt aid cid)).map
          (fun r => r.impressions.getD 0)).sum))
  ∧ ((query_metrics_sql tbl df dt aid cid sb sd page ps ic).totals.lookup "interactions"
      = some (((tbl.filter (build_where_pred df dt aid cid)).map
          (fun r => r.interactions.getD 0)).sum))
  ∧ ((query_metrics_sql tbl df dt aid cid sb sd page ps true).totals.lookup "cost_micros"
      = some (((tbl.filter (build_where_pred df dt aid cid)).map
          (fun r => r.cost_micros.getD 0)).sum)) := by
  have hq : ∀ b : Bool, (query_metrics_sql tbl df dt aid cid sb sd page ps b).totals
      = totalsRow (tbl.filter (build_where_pred df dt aid cid)) b := fun b => rfl
  refine ⟨?_, ?_, ?_, ?_, ?_⟩
  · rw [hq, totalsRow_lookup_clicks, coalesce0_sqlSUM]
  · rw [hq, totalsRow_lookup_conversions, coalesce0_sqlSUM]
  · rw [hq, totalsRow_lookup_impressions, coalesce0_sqlSUM]
  · rw [hq, totalsRow_lookup_interactions, coalesce0_sqlSUM]
  · rw [hq, totalsRow_lookup_cost, coalesce0_sqlSUM]

/-- Claim C7: import_csv_chunks fails with the file-not-found error
exactly when the source path does not exist, and in that case the table
state is returned unchanged, because the existence check precedes the
DELETE step. -/
theorem claim7_import_file_not_found (fs : String → Option (List (List CsvRecord)))
    (csv_path : String) (tbl : List MetricRow) :
    ((∃ msg, (import_csv_chunks fs csv_path tbl).1 = Except.error msg)
      ↔ fs csv_path = none)
  ∧ (fs csv_path = none → (import_csv_chunks fs csv_path tbl).2 = tbl) := by
  cases h : fs csv_path with
  | none => simp [import_csv_chunks, h]
  | some chunks => simp [import_csv_chunks, h]

/-- Claim C7, witness on a filesystem without the requested path. -/
theorem claim7_import_file_not_found_witness :
    ((∃ msg, (import_csv_chunks (fun _ => none) "metrics.csv" sampleTable).1
        = Except.error msg)
      ↔ (fun _ => (none : Option (List (List CsvRecord)))) "metrics.csv" = none)
  ∧ ((fun _ => (none : Option (List (List CsvRecord)))) "metrics.csv" = none →
      (import_csv_chunks (fun _ => none) "metrics.csv" sampleTable).2 = sampleTable) :=
  claim7_import_file_not_found (fun _ => none) "metrics.csv" sampleTable

/-- Claim C8: for totals maps A and B of two independent aggregator calls
and every key k of A, diff_abs[k] = B[k] - A[k], and diff_pct[k] is null
exactly when A[k] = 0 and otherwise (B[k] - A[k]) / A[k] * 100; the
division is guarded, so no division error can occur. -/
theorem claim8_compare_diff (rowsA rowsB : List MetricRow) (ic : Bool) (k : String)
    (hk : k ∈ (totalsRow rowsA ic).map Prod.fst) :
    ((compare_diffs (totalsRow rowsA ic) (totalsRow rowsB ic)).1.lookup k
      = some (dictGetD (totalsRow rowsB ic) k - dictGetD (totalsRow rowsA ic) k))
  ∧ ((compare_diffs (totalsRow rowsA ic) (totalsRow rowsB ic)).2.lookup k
      = some (if dictGetD (totalsRow rowsA ic) k = 0 then none
          else some ((dictGetD (totalsRow rowsB ic) k - dictGetD (totalsRow rowsA ic) k)
            / dictGetD (totalsRow rowsA ic) k * 100))) := by
  constructor
  · exact lookup_map_keyfun
      (fun x => dictGetD (totalsRow rowsB ic) x - dictGetD (totalsRow rowsA ic) x)
      (totalsRow rowsA ic) k hk
  · exact lookup_map_keyfun
      (fun x => if dictGetD (totalsRow rowsA ic) x = 0 then none
        else some ((dictGetD (totalsRow rowsB ic) x - dictGetD (totalsRow rowsA ic) x)
          / dictGetD (totalsRow rowsA ic) x * 100))
      (totalsRow rowsA ic) k hk

/-- Claim C8, witness comparing the sample table with an empty period. -/
theorem claim8_compare_diff_witness :
    ("clicks" ∈ (totalsRow sampleTable true).map Prod.fst) ∧
    (((compare_diffs (totalsRow sampleTable true) (totalsRow [] true)).1.lookup "clicks"
      = some (dictGetD (totalsRow [] true) "clicks"
          - dictGetD (totalsRow sampleTable true) "clicks"))
    ∧ ((compare_diffs (totalsRow sampleTable true) (totalsRow [] true)).2.lookup "clicks"
      = some (if dictGetD (totalsRow sampleTable true) "clicks" = 0 then none
          else some ((dictGetD (totalsRow [] true) "clicks"
              - dictGetD (totalsRow sampleTable true) "clicks")
            / dictGetD (totalsRow sampleTable true) "clicks" * 100)))) :=
  ⟨by decide, claim8_compare_diff sampleTable [] true "clicks" (by decide)⟩

/-- Claim C10: an empty-string value for date_from, date_to, account_id or
campaign_id yields exactly the same query page and the same export stream
as an absent value. -/
theorem claim10_empty_string_filters (tbl : List MetricRow)
    (df dt aid cid sb sd : Option String) (page ps : Int) (ic : Bool) :
    (query_metrics_sql tbl (some "") dt aid cid sb sd page ps ic
      = query_metrics_sql tbl none dt aid cid sb sd page ps ic)
  ∧ (query_metrics_sql tbl df (some "") aid cid sb sd page ps ic
      = query_metrics_sql tbl df none aid cid sb sd page ps ic)
  ∧ (query_metrics_sql tbl df dt (some "") cid sb sd page ps ic
      = query_metrics_sql tbl df dt none cid sb sd page ps ic)
  ∧ (query_metrics_sql tbl df dt aid (some "") sb sd page ps ic
      = query_metrics_sql tbl df dt aid none sb sd page ps ic)
  ∧ (stream_export_csv tbl (some "") dt aid cid sb sd ic
      = stream_export_csv tbl none dt aid cid sb sd ic)
  ∧ (stream_export_csv tbl df (some "") aid cid sb sd ic
      = stream_export_csv tbl df none aid cid sb sd ic)
  ∧ (stream_export_csv tbl df dt (some "") cid sb sd ic
      = stream_export_csv tbl df dt none cid sb sd ic)
  ∧ (stream_export_csv tbl df dt aid (some "") sb sd ic
      = stream_export_csv tbl df dt aid none sb sd ic) := by
  refine ⟨?_, ?_, ?_, ?_, ?_, ?_, ?_, ?_⟩ <;>
    simp only [query_metrics_sql, stream_export_csv, build_where_empty_df,
      build_where_empty_dt, build_where_empty_aid, build_where_empty_cid]

/-- Claim C5: stream_export_csv yields one header line matching the
active column projection followed by exactly one encoded line per row
matching the filter, with no pagination limit: its data-line count equals
the total reported by query_metrics_sql for the same filter, and with no
filter it equals the full table row count. -/
theorem claim5_export_line_counts (tbl : List MetricRow)
    (df dt aid cid sb sd : Option String) (page ps : Int) (ic : Bool) :
    ((stream_export_csv tbl df dt aid cid sb sd ic).length
      = 1 + (query_metrics_sql tbl df dt aid cid sb sd page ps ic).total)
  ∧ ((stream_export_csv tbl df dt aid cid sb sd ic).head?
      = some (csvLine (projCols ic)))
  ∧ ((stream_export_csv tbl none none none none sb sd ic).length
      = 1 + tbl.length) := by
  refine ⟨?_, rfl, ?_⟩
  · simp only [stream_export_csv, query_metrics_sql, List.length_cons,
      List.length_map, orderRows_length]
    omega
  · simp only [stream_export_csv, List.length_cons, List.length_map, orderRows_length]
    have hpred : build_where_pred none none none none = fun _ => true := by
      funext r; simp [build_where_pred, truthy]
    rw [hpred, List.filter_true]
    omega

/-- Claim C3: for a fixed filter and a fixed page size, the row pages for
page = 1..K (offset (page-1)*page_size) tile the ordered filtered set
exactly once K pages cover it: their concatenation is the whole projected
ordered set (a permutation of the filtered set), the page lengths sum to
the filtered row count, and every page reports that same pre-pagination
count as its total. -/
theorem claim3_pages_partition (tbl : List MetricRow)
    (df dt aid cid sb sd : Option String) (ic : Bool) (ps : Int) (K : Nat)
    (hps1 : 1 ≤ ps) (hps2 : ps ≤ 200)
    (hK : (tbl.filter (build_where_pred df dt aid cid)).length ≤ K * ps.toNat) :
    (((List.range K).map (fun (i : Nat) =>
        (query_metrics_sql tbl df dt aid cid sb sd ((i : Int) + 1) ps ic).rows)).flatten
      = (orderRows (tbl.filter (build_where_pred df dt aid cid))
          (sanitize_sort_by sb) (sanitize_sort_dir sd)).map (projectRow ic))
  ∧ ((orderRows (tbl.filter (build_where_pred df dt aid cid))
        (sanitize_sort_by sb) (sanitize_sort_dir sd)).Perm
      (tbl.filter (build_where_pred df dt aid cid)))
  ∧ (((List.range K).map (fun (i : Nat) =>
        (query_metrics_sql tbl df dt aid cid sb sd ((i : Int) + 1) ps ic).rows.length)).sum
      = (tbl.filter (build_where_pred df dt aid cid)).length)
  ∧ (∀ i : Nat, i < K →
      (query_metrics_sql tbl df dt aid cid sb sd ((i : Int) + 1) ps ic).total
        = (tbl.filter (build_where_pred df dt aid cid)).length) := by
  have hps : (max 1 (min 200 ps)).toNat = ps.toNat := by omega
  have hpage : ∀ i : Nat, (max 1 ((i : Int) + 1)).toNat = i + 1 := by
    intro i; omega
  have hrows : ∀ i : Nat,
      (query_metrics_sql tbl df dt aid cid sb sd ((i : Int) + 1) ps ic).rows
        = (((orderRows (tbl.filter (build_where_pred df dt aid cid))
            (sanitize_sort_by sb) (sanitize_sort_dir sd)).drop (i * ps.toNat)).take
              ps.toNat).map (projectRow ic) := by
    intro i
    simp only [query_metrics_sql]
    rw [hps, hpage i, Nat.add_sub_cancel]
  have h1 : (((List.range K).map (fun (i : Nat) =>
      (query_metrics_sql tbl df dt aid cid sb sd ((i : Int) + 1) ps ic).rows)).flatten
      = (orderRows (tbl.filter (build_where_pred df dt aid cid))
          (sanitize_sort_by sb) (sanitize_sort_dir sd)).map (projectRow ic)) := by
    rw [List.map_congr_left (fun i _ => hrows i)]
    rw [show (List.range K).map (fun (i : Nat) =>
        (((orderRows (tbl.filter (build_where_pred df dt aid cid))
            (sanitize_sort_by sb) (sanitize_sort_dir sd)).drop (i * ps.toNat)).take
              ps.toNat).map (projectRow ic))
        = ((List.range K).map (fun (i : Nat) =>
          ((orderRows (tbl.filter (build_where_pred df dt aid cid))
            (sanitize_sort_by sb) (sanitize_sort_dir sd)).drop (i * ps.toNat)).take
              ps.toNat)).map (List.map (projectRow ic)) from by
          rw [List.map_map]; rfl]
    rw [← List.map_flatten, flatten_pageSlices]
    rw [List.take_of_length_le]
    rw [orderRows_length]
    exact hK
  refine ⟨h1, orderRows_perm _ _ _, ?_, fun i _ => rfl⟩
  have h := congrArg List.length h1
  rw [List.length_flatten, List.map_map, List.length_map, orderRows_length] at h
  simpa [Function.comp] using h

/-- Claim C3, witness: date filter 2024-01-01..2024-01-02 over the sample
table (2 matching rows), page size 1, two pages. -/
theorem claim3_pages_partition_witness :
    ((1 : Int) ≤ 1 ∧ (1 : Int) ≤ 200 ∧
      (sampleTable.filter (build_where_pred (some "2024-01-01") (some "2024-01-02")
        none none)).length ≤ 2 * (1 : Int).toNat) ∧
    ((((List.range 2).map (fun (i : Nat) =>
        (query_metrics_sql sampleTable (some "2024-01-01") (some "2024-01-02")
          none none none none ((i : Int) + 1) 1 true).rows)).flatten
      = (orderRows (sampleTable.filter (build_where_pred (some "2024-01-01")
            (some "2024-01-02") none none))
          (sanitize_sort_by none) (sanitize_sort_dir none)).map (projectRow true))
  ∧ ((orderRows (sampleTable.filter (build_where_pred (some "2024-01-01")
          (some "2024-01-02") none none))
        (sanitize_sort_by none) (sanitize_sort_dir none)).Perm
      (sampleTable.filter (build_where_pred (some "2024-01-01") (some "2024-01-02")
        none none)))
  ∧ (((List.range 2).map (fun (i : Nat) =>
        (query_metrics_sql sampleTable (some "2024-01-01") (some "2024-01-02")
          none none none none ((i : Int) + 1) 1 true).rows.length)).sum
      = (sampleTable.filter (build_where_pred (some "2024-01-01") (some "2024-01-02")
          none none)).length)
  ∧ (∀ i : Nat, i < 2 →
      (query_metrics_sql sampleTable (some "2024-01-01") (some "2024-01-02")
          none none none none ((i : Int) + 1) 1 true).total
        = (sampleTable.filter (build_where_pred (some "2024-01-01") (some "2024-01-02")
            none none)).length)) :=
  ⟨⟨by decide, by decide, by decide⟩,
    claim3_pages_partition sampleTable (some "2024-01-01") (some "2024-01-02")
      none none none none true 1 2 (by decide) (by decide) (by decide)⟩

/-- Claim C6: two independent fallbacks.  First, for every sort_by value
outside the allow-list and every sort_dir, query and export silently fall
back to sorting by date: they equal the results requested with sort_by
date, with no error.  Second, for every sort_dir other than a
case-insensitive desc and every sort_by, the order is ascending: they
equal the results requested with sort_dir asc, and the ordered filtered
set is pairwise ascending in the sanitized sort column. -/
theorem claim6_sort_fallback (tbl : List MetricRow)
    (df dt aid cid sb sd : Option String) (page ps : Int) (ic : Bool) :
    (sb.getD "" ∉ ALLOWED_SORT →
      (query_metrics_sql tbl df dt aid cid sb sd page ps ic
        = query_metrics_sql tbl df dt aid cid (some "date") sd page ps ic)
      ∧ (stream_export_csv tbl df dt aid cid sb sd ic
        = stream_export_csv tbl df dt aid cid (some "date") sd ic))
  ∧ (asciiLower (sd.getD "") ≠ "desc" →
      (query_metrics_sql tbl df dt aid cid sb sd page ps ic
        = query_metrics_sql tbl df dt aid cid sb (some "asc") page ps ic)
      ∧ (stream_export_csv tbl df dt aid cid sb sd ic
        = stream_export_csv tbl df dt aid cid sb (some "asc") ic)
      ∧ List.Pairwise (fun a b : MetricRow =>
          sqlValueLe (a.getCol (sanitize_sort_by sb))
            (b.getCol (sanitize_sort_by sb)) = true)
        (orderRows (tbl.filter (build_where_pred df dt aid cid))
          (sanitize_sort_by sb) (sanitize_sort_dir sd))) := by
  constructor
  · intro hsb
    have hby : sanitize_sort_by sb = "date" := by
      cases sb with
      | none => rfl
      | some s =>
        have hs : s ∉ ALLOWED_SORT := hsb
        simp [sanitize_sort_by, hs]
    have hby2 : sanitize_sort_by (some "date") = "date" := by decide
    exact ⟨by simp only [query_metrics_sql, hby, hby2],
      by simp only [stream_export_csv, hby, hby2]⟩
  · intro hsd
    have hdir : sanitize_sort_dir sd = "ASC" := by
      unfold sanitize_sort_dir
      rw [if_neg]
      simpa using hsd
    have hdir2 : sanitize_sort_dir (some "asc") = "ASC" := by decide
    refine ⟨by simp only [query_metrics_sql, hdir, hdir2],
      by simp only [stream_export_csv, hdir, hdir2], ?_⟩
    rw [hdir]
    unfold orderRows
    rw [if_neg (by decide)]
    exact @List.sorted_mergeSort MetricRow
      (fun a b => sqlValueLe (a.getCol (sanitize_sort_by sb))
        (b.getCol (sanitize_sort_by sb)))
      (fun a b c h1 h2 => sqlValueLe_trans _ _ _ h1 h2)
      (fun a b => sqlValueLe_total _ _)
      (tbl.filter (build_where_pred df dt aid cid))

/-- Claim C6, witness: an off-list sort column and a junk direction over
the sample table, exercising both halves. -/
theorem claim6_sort_fallback_witness :
    ((Option.getD (some "bogus") "" ∉ ALLOWED_SORT →
      (query_metrics_sql sampleTable none none none none (some "bogus") (some "up") 1 50 true
        = query_metrics_sql sampleTable none none none none (some "date") (some "up") 1 50 true)
      ∧ (stream_export_csv sampleTable none none none none (some "bogus") (some "up") true
        = stream_export_csv sampleTable none none none none (some "date") (some "up") true))
  ∧ (asciiLower (Option.getD (some "up") "") ≠ "desc" →
      (query_metrics_sql sampleTable none none none none (some "bogus") (some "up") 1 50 true
        = query_metrics_sql sampleTable none none none none (some "bogus") (some "asc") 1 50 true)
      ∧ (stream_export_csv sampleTable none none none none (some "bogus") (some "up") true
        = stream_export_csv sampleTable none none none none (some "bogus") (some "asc") true)
      ∧ List.Pairwise (fun a b : MetricRow =>
          sqlValueLe (a.getCol (sanitize_sort_by (some "bogus")))
            (b.getCol (sanitize_sort_by (some "bogus"))) = true)
        (orderRows (sampleTable.filter (build_where_pred none none none none))
          (sanitize_sort_by (some "bogus")) (sanitize_sort_dir (some "up"))))) :=
  claim6_sort_fallback sampleTable none none none none (some "bogus") (some "up")
    1 50 true

/-- Claim C9, amended: get_distinct_values returns the empty list (never
an error) for every column other than account_id and campaign_id; its
result is sorted ascending in the storage TEXT order, duplicate-free,
holds at most limit elements, and every element is a value of the
requested column that matches the LIKE pattern %q% when q is non-empty
(q is interpolated raw, so % and _ inside q act as wildcards; for q free
of wildcards this is substring match). -/
theorem claim9_distinct_values (tbl : List MetricRow) (column q : String)
    (limit : Nat) :
    ((column ≠ "account_id" ∧ column ≠ "campaign_id") →
      get_distinct_values tbl column q limit = [])
  ∧ List.Pairwise (fun a b : String => strLe a b = true)
      (get_distinct_values tbl column q limit)
  ∧ (get_distinct_values tbl column q limit).Nodup
  ∧ (get_distinct_values tbl column q limit).length ≤ limit
  ∧ (∀ v ∈ get_distinct_values tbl column q limit,
      some v ∈ tbl.map (fun r => getTextCol r column)
      ∧ (q ≠ "" → sqlLikeContains q v = true)) := by
  by_cases hcol : (column == "account_id" || column == "campaign_id") = true
  · have hcol2 : column = "account_id" ∨ column = "campaign_id" := by
      simpa using hcol
    have hdef : get_distinct_values tbl column q limit
        = (((((if q == "" then tbl.map (fun r => getTextCol r column)
              else (tbl.map (fun r => getTextCol r column)).filter
                (nnCond (fun v => sqlLikeContains q v))).dedup).mergeSort
              optStrLe).take limit).filterMap id) := by
      unfold get_distinct_values
      rw [hcol]
      rfl
    have hsorted : List.Pairwise (fun a b => optStrLe a b = true)
        (((if q == "" then tbl.map (fun r => getTextCol r column)
          else (tbl.map (fun r => getTextCol r column)).filter
            (nnCond (fun v => sqlLikeContains q v))).dedup).mergeSort optStrLe) :=
      List.sorted_mergeSort
        (fun a b c h1 h2 => optStrLe_trans a b c h1 h2)
        (fun a b => optStrLe_total a b) _
    have htake := List.Pairwise.sublist (List.take_sublist limit _) hsorted
    have hnodup : (((if q == "" then tbl.map (fun r => getTextCol r column)
        else (tbl.map (fun r => getTextCol r column)).filter
          (nnCond (fun v => sqlLikeContains q v))).dedup).mergeSort optStrLe).Nodup :=
      (List.mergeSort_perm _ optStrLe).symm.nodup (List.nodup_dedup _)
    refine ⟨?_, ?_, ?_, ?_, ?_⟩
    · intro h
      exact absurd hcol2 (by tauto)
    · rw [hdef, List.pairwise_filterMap]
      refine htake.imp ?_
      intro a b hab x hx y hy
      cases a <;> cases b <;> simp_all [optStrLe]
    · rw [hdef]
      refine List.Nodup.filterMap ?_ ((List.take_sublist limit _).nodup hnodup)
      intro a b c hc hc2
      cases a <;> cases b <;> simp_all
    · rw [hdef]
      exact le_trans (List.length_filterMap_le _ _) (List.length_take_le _ _)
    · intro v hv
      rw [hdef] at hv
      have hv2 : some v ∈ (((if q == "" then tbl.map (fun r => getTextCol r column)
          else (tbl.map (fun r => getTextCol r column)).filter
            (nnCond (fun v => sqlLikeContains q v))).dedup).mergeSort optStrLe).take
            limit := by
        rcases List.mem_filterMap.mp hv with ⟨a, ha, hav⟩
        cases a with
        | none => simp at hav
        | some a0 =>
          have : a0 = v := by simpa using hav
          rw [this] at ha
          exact ha
      have hv3 : some v ∈ ((if q == "" then tbl.map (fun r => getTextCol r column)
          else (tbl.map (fun r => getTextCol r column)).filter
            (nnCond (fun v => sqlLikeContains q v))).dedup) :=
        List.mem_mergeSort.mp ((List.take_sublist limit _).subset hv2)
      have hv4 : some v ∈ (if q == "" then tbl.map (fun r => getTextCol r column)
          else (tbl.map (fun r => getTextCol r column)).filter
            (nnCond (fun v => sqlLikeContains q v))) :=
        List.mem_dedup.mp hv3
      by_cases hq : (q == "") = true
      · rw [if_pos hq] at hv4
        have hq2 : q = "" := by simpa using hq
        exact ⟨hv4, fun hne => absurd hq2 hne⟩
      · rw [if_neg hq] at hv4
        rcases List.mem_filter.mp hv4 with ⟨hmem, hlike⟩
        exact ⟨hmem, fun _ => by simpa [nnCond] using hlike⟩
  · have hdef0 : get_distinct_values tbl column q limit = [] := by
      unfold get_distinct_values
      rw [if_pos]
      simpa using hcol
    rw [hdef0]
    exact ⟨fun _ => rfl, List.Pairwise.nil, List.nodup_nil, by simp, by simp⟩

/-- Claim C9, witness: the disallowed column cost_micros with a non-empty
substring over the sample table. -/
theorem claim9_distinct_values_witness :
    ((("cost_micros" ≠ "account_id" ∧ "cost_micros" ≠ "campaign_id") →
      get_distinct_values sampleTable "cost_micros" "acc" 5 = [])
  ∧ List.Pairwise (fun a b : String => strLe a b = true)
      (get_distinct_values sampleTable "cost_micros" "acc" 5)
  ∧ (get_distinct_values sampleTable "cost_micros" "acc" 5).Nodup
  ∧ (get_distinct_values sampleTable "cost_micros" "acc" 5).length ≤ 5
  ∧ (∀ v ∈ get_distinct_values sampleTable "cost_micros" "acc" 5,
      some v ∈ sampleTable.map (fun r => getTextCol r "cost_micros")
      ∧ ("acc" ≠ "" → sqlLikeContains "acc" v = true))) :=
  claim9_distinct_values sampleTable "cost_micros" "acc" 5

/-- Claim C9, counterexample: the claim as stated says the returned
values are filtered by substring match on q, but q is interpolated raw
into the LIKE pattern, where an underscore matches any character: with
q = acc_1, get_distinct_values returns the stored value acc-1, of which
acc_1 is not a substring under either a case-sensitive or a
case-insensitive reading. -/
theorem claim9_counterexample :
    get_distinct_values [wildcardRow] "account_id" "acc_1" 10 = ["acc-1"]
    ∧ ¬ ("acc_1".toList <:+: "acc-1".toList)
    ∧ ¬ ((asciiLower "acc_1").toList <:+: (asciiLower "acc-1").toList) := by
  refine ⟨?_, by decide, by decide⟩
  have h1 : get_distinct_values [wildcardRow] "account_id" "acc_1" 10
      = (([some "acc-1"].mergeSort optStrLe).take 10).filterMap id := rfl
  rw [h1, List.mergeSort_singleton]
  rfl

end MetricsApp
